import Mathlib

/-!
Verification of the language-item registry of `src/librustc/middle/lang_items.rs`.

The Rust source is shallowly embedded:
* `ast::DefId` becomes the structure `DefId` (crate number and node id);
* the fixed array `items: [Option<ast::DefId>, ..40]` becomes a function
  `Fin 40 → Option DefId`;
* the mutable `LanguageItemCollector` (its table plus the `Session` error
  sink) becomes the structure `CollectorState`, threaded explicitly;
* `Session::err` appends the message to the list of recorded errors;
* the `HashMap` `item_refs` (distinct keys) becomes an association list
  looked up with `List.find?`;
* `require`'s `Result<ast::DefId, ~str>` becomes `Except String DefId`.
-/

namespace LangItems

/-- `ast::DefId`: crate number and node id.  Two identities are equal iff
both components match (`#[deriving(Eq)]` on the Rust side). -/
structure DefId where
  crate : Int
  node : Int
  deriving DecidableEq, Repr

/-- `local_def` from `syntax::ast_util`: a `DefId` in the local crate
(crate number 0, `LOCAL_CRATE`). -/
def local_def (node : Int) : DefId :=
  { crate := 0, node := node }

/-- `LanguageItems::item_name`: the symbolic name of each of the 40 slots,
`"???"` for any other index. -/
def item_name (index : Nat) : String :=
  match index with
  | 0  => "freeze"
  | 1  => "send"
  | 2  => "sized"
  | 3  => "drop"
  | 4  => "add"
  | 5  => "sub"
  | 6  => "mul"
  | 7  => "div"
  | 8  => "rem"
  | 9  => "neg"
  | 10 => "not"
  | 11 => "bitxor"
  | 12 => "bitand"
  | 13 => "bitor"
  | 14 => "shl"
  | 15 => "shr"
  | 16 => "index"
  | 17 => "eq"
  | 18 => "ord"
  | 19 => "str_eq"
  | 20 => "uniq_str_eq"
  | 21 => "fail_"
  | 22 => "fail_bounds_check"
  | 23 => "exchange_malloc"
  | 24 => "closure_exchange_malloc"
  | 25 => "exchange_free"
  | 26 => "malloc"
  | 27 => "free"
  | 28 => "borrow_as_imm"
  | 29 => "borrow_as_mut"
  | 30 => "return_to_mut"
  | 31 => "check_not_borrowed"
  | 32 => "strdup_uniq"
  | 33 => "record_borrow"
  | 34 => "unrecord_borrow"
  | 35 => "start"
  | 36 => "ty_desc"
  | 37 => "ty_visitor"
  | 38 => "opaque"
  | 39 => "event_loop_factory"
  | _ => "???"

/-- The `items` field of `LanguageItems`: one `Option DefId` per slot. -/
abbrev Table := Fin 40 → Option DefId

/-- `LanguageItems::new`: every slot starts out `None`. -/
def LanguageItems.new : Table := fun _ => none

/-- `LanguageItems::require`: `Ok` of the stored identity when the slot is
filled, otherwise the missing-lang-item error message. -/
def require (t : Table) (it : Fin 40) : Except String DefId :=
  match t it with
  | some id => Except.ok id
  | none => Except.error ("requires `" ++ item_name it.val ++ "` lang_item")

/-- `middle::ty::BuiltinBound`, restricted to the variants this module
mentions. -/
inductive BuiltinBound where
  | BoundFreeze
  | BoundSend
  | BoundSized
  deriving DecidableEq, Repr

/-- `LanguageItems::freeze_trait`: slot 0. -/
def freeze_trait (t : Table) : Option DefId := t 0

/-- `LanguageItems::send_trait`: slot 1. -/
def send_trait (t : Table) : Option DefId := t 1

/-- `LanguageItems::sized_trait`: slot 2. -/
def sized_trait (t : Table) : Option DefId := t 2

/-- `LanguageItems::add_trait`: slot 4. -/
def add_trait (t : Table) : Option DefId := t 4

/-- `LanguageItems::to_builtin_kind`: the chain of `if`/`else if` tests
against the freeze, send and sized slots, in that order. -/
def to_builtin_kind (t : Table) (id : DefId) : Option BuiltinBound :=
  if some id = freeze_trait t then
    some BuiltinBound.BoundFreeze
  else if some id = send_trait t then
    some BuiltinBound.BoundSend
  else if some id = sized_trait t then
    some BuiltinBound.BoundSized
  else
    none

/-- The `LanguageItemCollector`'s mutable state: its `LanguageItems` table
together with the errors recorded so far on the `Session`. -/
structure CollectorState where
  items : Table
  errors : List String

/-- `Session::err`: record one more error message. -/
def sessionErr (st : CollectorState) (msg : String) : CollectorState :=
  { st with errors := st.errors ++ [msg] }

/-- The collector's starting state: `LanguageItems::new()` and no errors. -/
def initState : CollectorState :=
  { items := LanguageItems.new, errors := [] }

/-- `LanguageItemCollector::collect_item`: report a duplicate when the slot
already holds a different identity, then unconditionally store the new
identity. -/
def collect_item (st : CollectorState) (item_index : Fin 40)
    (item_def_id : DefId) : CollectorState :=
  let checked : CollectorState :=
    match st.items item_index with
    | some original_def_id =>
        if original_def_id ≠ item_def_id then
          sessionErr st
            ("duplicate entry for `" ++ item_name item_index.val ++ "`")
        else
          st
    | none => st
  { checked with
    items := Function.update checked.items item_index (some item_def_id) }

/-- The `item_refs` map built by `LanguageItemCollector::new`, as an
association list in insertion order (the `HashMap` keys are distinct, so
lookup order is immaterial). -/
def item_refs : List (String × Fin 40) :=
  [ ("freeze", 0), ("send", 1), ("sized", 2),
    ("drop", 3),
    ("add", 4), ("sub", 5), ("mul", 6), ("div", 7), ("rem", 8),
    ("neg", 9), ("not", 10), ("bitxor", 11), ("bitand", 12),
    ("bitor", 13), ("shl", 14), ("shr", 15), ("index", 16),
    ("eq", 17), ("ord", 18),
    ("str_eq", 19), ("uniq_str_eq", 20), ("fail_", 21),
    ("fail_bounds_check", 22), ("exchange_malloc", 23),
    ("closure_exchange_malloc", 24), ("exchange_free", 25),
    ("malloc", 26), ("free", 27), ("borrow_as_imm", 28),
    ("borrow_as_mut", 29), ("return_to_mut", 30),
    ("check_not_borrowed", 31), ("strdup_uniq", 32),
    ("record_borrow", 33), ("unrecord_borrow", 34),
    ("start", 35),
    ("ty_desc", 36), ("ty_visitor", 37), ("opaque", 38),
    ("event_loop_factory", 39) ]

/-- `item_refs.find_equiv(&value)`: name → slot lookup. -/
def find_equiv (value : String) : Option (Fin 40) :=
  (item_refs.find? (fun p => p.1 = value)).map Prod.snd

/-- An attribute as seen through `Attribute::name_str_pair()`: `some (key,
value)` for a key–value attribute, `none` for any other shape. -/
abbrev Attr := Option (String × String)

/-- `extract`: the value of the first attribute whose key is `"lang"`. -/
def extract (attrs : List Attr) : Option String :=
  match attrs with
  | [] => none
  | attrib :: rest =>
      match attrib with
      | some (key, value) =>
          if "lang" = key then some value else extract rest
      | none => extract rest

/-- An `ast::item`, reduced to the fields `visit_item` reads: its node id
and its attribute list. -/
structure Item where
  id : Int
  attrs : List Attr

/-- `LanguageItemVisitor::visit_item`, the action on one item (the
`walk_item` recursion into children repeats this same action): extract the
`lang` attribute value, resolve it through `item_refs`, and on a match
collect `local_def(item.id)` into that slot. -/
def visit_item (st : CollectorState) (item : Item) : CollectorState :=
  match extract item.attrs with
  | some value =>
      match find_equiv value with
      | some item_index => collect_item st item_index (local_def item.id)
      | none => st
  | none => st

end LangItems

namespace LangItems

/-! ### Concrete states used by counterexamples and witnesses -/

/-- A collector state whose freeze slot (slot 0) already holds the local
identity with node 1, with no errors recorded yet. -/
def stA : CollectorState :=
  { items := Function.update LanguageItems.new 0 (some (local_def 1)),
    errors := [] }

/-- A table whose freeze slot (slot 0) and send slot (slot 1) both hold the
local identity with node 9. -/
def tblFS : Table :=
  Function.update (Function.update LanguageItems.new 0 (some (local_def 9)))
    1 (some (local_def 9))

/-- A table whose add slot (slot 4) holds the local identity with node 8. -/
def tblAdd : Table :=
  Function.update LanguageItems.new 4 (some (local_def 8))

/-! ### C1 -/

/-- C1 counterexample: with slot 0 filled by identity A = `local_def 1`,
calling `collect_item` with the different identity B = `local_def 2` does
NOT leave the stored identity unchanged at A: the slot ends up holding B.
This refutes the claim's "leaves the slot's stored identity unchanged at A
(conflict, not overwrite)" — line 406 of the source stores the new identity
unconditionally, after the error has been recorded. -/
theorem collect_item_conflict_cex :
    (collect_item stA 0 (local_def 2)).items 0 ≠ some (local_def 1) := by
  decide

/-- C1 (amended): calling `collect_item` on a slot filled with identity A,
with a different identity B, records a duplicate-registration conflict
naming the slot's symbolic name, and then stores B in the slot (the write
is unconditional, so the slot ends holding B, not A). -/
theorem collect_item_conflict_spec (st : CollectorState) (i : Fin 40)
    (A B : DefId) (hA : st.items i = some A) (hne : A ≠ B) :
    (collect_item st i B).errors =
      st.errors ++ ["duplicate entry for `" ++ item_name i.val ++ "`"] ∧
    (collect_item st i B).items i = some B := by
  unfold collect_item
  simp [hA, hne, sessionErr, Function.update_same]

/-- C1 witness: the amended theorem at slot 0, A = `local_def 1`,
B = `local_def 2`. -/
theorem collect_item_conflict_spec_witness :
    (collect_item stA 0 (local_def 2)).errors =
      stA.errors ++ ["duplicate entry for `" ++ item_name (0 : Fin 40).val ++ "`"] ∧
    (collect_item stA 0 (local_def 2)).items 0 = some (local_def 2) :=
  collect_item_conflict_spec stA 0 (local_def 1) (local_def 2)
    (by decide) (by decide)

/-! ### C2 -/

/-- C2: registering the same (slot, identity) pair twice is idempotent:
from any collector state, the second `collect_item` call records no error
and leaves the whole state (table and error list) exactly as after the
first call. -/
theorem collect_item_idem (st : CollectorState) (i : Fin 40) (id : DefId) :
    collect_item (collect_item st i id) i id = collect_item st i id := by
  unfold collect_item
  cases h : st.items i with
  | none => simp [h, Function.update_same, Function.update_idem]
  | some orig =>
      by_cases he : orig = id
      · simp [h, he, Function.update_same, Function.update_idem]
      · simp [h, he, Function.update_same, Function.update_idem, sessionErr]

/-! ### C3 -/

/-- C3: catalog round trip — for every one of the 40 slots, resolving the
slot's symbolic name (`item_name`) back through the name index built in
`LanguageItemCollector::new` (`find_equiv` over `item_refs`) yields the
original slot. -/
theorem item_name_round_trip :
    ∀ i : Fin 40, find_equiv (item_name i.val) = some i := by
  decide

/-! ### C4 -/

/-- C4: `require` returns an error message containing the slot's symbolic
name exactly when the slot is empty, and on a filled slot returns `Ok` of
exactly the stored identity. -/
theorem require_spec (t : Table) (it : Fin 40) :
    ((∃ pre post,
        require t it = Except.error (pre ++ item_name it.val ++ post)) ↔
      t it = none) ∧
    (∀ id, t it = some id → require t it = Except.ok id) := by
  constructor
  · constructor
    · rintro ⟨pre, post, h⟩
      cases ht : t it with
      | none => rfl
      | some id => rw [require, ht] at h; cases h
    · intro ht
      exact ⟨"requires `", "` lang_item", by rw [require, ht]⟩
  · intro id ht
    rw [require, ht]

/-- C4 witness: on the empty table, `require` of slot 0 errors with a
message containing `"freeze"`; on a table whose add slot holds
`local_def 5`, `require` of slot 4 returns exactly that identity. -/
theorem require_spec_witness :
    (∃ pre post,
        require LanguageItems.new 0 =
          Except.error (pre ++ item_name (0 : Fin 40).val ++ post)) ∧
    require (Function.update LanguageItems.new 4 (some (local_def 5))) 4 =
      Except.ok (local_def 5) :=
  ⟨(require_spec LanguageItems.new 0).1.mpr rfl,
   (require_spec (Function.update LanguageItems.new 4 (some (local_def 5)))
       4).2 (local_def 5) (by simp)⟩

/-! ### C5 -/

/-- C5: starting from the empty collector state, registering two distinct
identities A then B into the same slot records exactly one conflict, and
registering B then A also records exactly one conflict. -/
theorem one_conflict_either_order (i : Fin 40) (A B : DefId) (hne : A ≠ B) :
    (collect_item (collect_item initState i A) i B).errors.length = 1 ∧
    (collect_item (collect_item initState i B) i A).errors.length = 1 := by
  have hne2 : B ≠ A := fun h => hne h.symm
  unfold collect_item
  simp [initState, LanguageItems.new, Function.update_same, hne, hne2,
    sessionErr]

/-- C5 witness: slot 0 with identities `local_def 1` and `local_def 2`. -/
theorem one_conflict_either_order_witness :
    (collect_item (collect_item initState 0 (local_def 1)) 0
        (local_def 2)).errors.length = 1 ∧
    (collect_item (collect_item initState 0 (local_def 2)) 0
        (local_def 1)).errors.length = 1 :=
  one_conflict_either_order 0 (local_def 1) (local_def 2) (by decide)

end LangItems

namespace LangItems

/-! ### C6 -/

/-- C6 counterexample: in a table whose freeze and send slots both hold the
identity `local_def 9`, `to_builtin_kind` returns `BoundFreeze` (the first
test of the if-chain wins), so it does NOT return `BoundSend` even though
the send slot is filled with that identity — refuting the claim's
"returns BoundSend exactly when the send slot is filled with an identity
equal to id" at this state. -/
theorem to_builtin_kind_cex :
    ¬ ((to_builtin_kind tblFS (local_def 9) = some BuiltinBound.BoundSend) ↔
        send_trait tblFS = some (local_def 9)) := by
  decide

/-- C6 (amended): `to_builtin_kind` tests the freeze, send and sized slots
in that priority order: it returns `BoundFreeze` iff the freeze slot holds
`id`; `BoundSend` iff the send slot holds `id` and the freeze slot does
not; `BoundSized` iff the sized slot holds `id` and neither earlier slot
does; and `none` iff none of the three slots holds `id` — in particular an
identity stored only in any other slot (such as the add slot) yields
`none`. -/
theorem to_builtin_kind_spec (t : Table) (id : DefId) :
    (to_builtin_kind t id = some BuiltinBound.BoundFreeze ↔
       freeze_trait t = some id) ∧
    (to_builtin_kind t id = some BuiltinBound.BoundSend ↔
       (send_trait t = some id ∧ freeze_trait t ≠ some id)) ∧
    (to_builtin_kind t id = some BuiltinBound.BoundSized ↔
       (sized_trait t = some id ∧ freeze_trait t ≠ some id ∧
        send_trait t ≠ some id)) ∧
    (to_builtin_kind t id = none ↔
       (freeze_trait t ≠ some id ∧ send_trait t ≠ some id ∧
        sized_trait t ≠ some id)) := by
  unfold to_builtin_kind
  by_cases h1 : some id = freeze_trait t
  · rw [if_pos h1]
    simp [← h1]
  · rw [if_neg h1]
    have h1' : freeze_trait t ≠ some id := fun h => h1 h.symm
    by_cases h2 : some id = send_trait t
    · rw [if_pos h2]
      simp [← h2, h1']
    · rw [if_neg h2]
      have h2' : send_trait t ≠ some id := fun h => h2 h.symm
      by_cases h3 : some id = sized_trait t
      · rw [if_pos h3]
        simp [← h3, h1', h2']
      · rw [if_neg h3]
        have h3' : sized_trait t ≠ some id := fun h => h3 h.symm
        simp [h1', h2', h3']

/-- C6 witness: the add-trait identity `local_def 8`, stored only in the
add slot, classifies as `none`. -/
theorem to_builtin_kind_spec_witness :
    to_builtin_kind tblAdd (local_def 8) = none :=
  (to_builtin_kind_spec tblAdd (local_def 8)).2.2.2.mpr (by decide)

/-! ### C7 -/

/-- Specification-side description of the marker scan, written from the
spec's words: among the attributes that carry the key `"lang"`, take the
first one in list order and return its value; return `none` when no
attribute in the list has that key. -/
def firstLangValue (attrs : List Attr) : Option String :=
  ((attrs.filter (fun a =>
      match a with
      | some (k, _) => k = "lang"
      | none => false)).head?).bind
    (fun a =>
      match a with
      | some (_, v) => some v
      | none => none)

/-- C7: `extract` returns the value of the first attribute in list order
whose key equals `"lang"`, and `none` when no attribute has that key —
it coincides with the spec-side `firstLangValue` on every attribute
list. -/
theorem extract_spec (attrs : List Attr) :
    extract attrs = firstLangValue attrs := by
  induction attrs with
  | nil => rfl
  | cons a rest ih =>
      match a with
      | none => simpa [extract, firstLangValue, List.filter] using ih
      | some (k, v) =>
          by_cases hk : "lang" = k
          · simp [extract, firstLangValue, hk, List.filter]
          · have hk2 : ¬ (k = "lang") := fun h2 => hk h2.symm
            simpa [extract, firstLangValue, hk, hk2, List.filter] using ih

/-! ### C8 -/

/-- C8: visiting an item whose marker-attribute value resolves to no
catalog name leaves the collector state (table and error list) exactly
unchanged. -/
theorem visit_item_unknown_name_noop (st : CollectorState) (item : Item)
    (v : String) (he : extract item.attrs = some v)
    (hf : find_equiv v = none) :
    visit_item st item = st := by
  simp only [visit_item, he, hf]

/-- C8 witness: an item tagged `lang = "not_a_real_item"`, visited from the
empty initial state, leaves that state fully empty with no error. -/
theorem visit_item_unknown_name_noop_witness :
    visit_item initState
      { id := 7, attrs := [some ("lang", "not_a_real_item")] } = initState :=
  visit_item_unknown_name_noop initState
    { id := 7, attrs := [some ("lang", "not_a_real_item")] }
    "not_a_real_item" (by rfl) (by decide)

/-! ### C9 -/

/-- C9: monotone population — the table starts with every slot `none`, and
`collect_item` never returns a filled slot to empty: any slot that is
`some` before a call is still `some` after it. -/
theorem collect_item_monotone :
    (∀ j : Fin 40, initState.items j = none) ∧
    (∀ (st : CollectorState) (i : Fin 40) (id : DefId) (j : Fin 40),
       st.items j ≠ none → (collect_item st i id).items j ≠ none) := by
  constructor
  · intro j; rfl
  · intro st i id j hj
    unfold collect_item
    by_cases hij : j = i
    · subst hij
      cases h : st.items j with
      | none => simp [h, Function.update_same]
      | some orig =>
          by_cases he : orig = id <;>
            simp [h, he, sessionErr, Function.update_same]
    · cases h : st.items j with
      | none => exact absurd h hj
      | some orig =>
          cases h2 : st.items i with
          | none => simp [h2, Function.update_noteq hij, h]
          | some o2 =>
              by_cases he : o2 = id <;>
                simp [h2, he, sessionErr, Function.update_noteq hij, h]

/-- C9 witness: slot 0 of the initial table is empty, and a state whose
slot 3 is filled keeps slot 3 filled after collecting into slot 0. -/
theorem collect_item_monotone_witness :
    initState.items 0 = none ∧
    (collect_item
        { items := Function.update LanguageItems.new 3 (some (local_def 4)),
          errors := [] }
        0 (local_def 9)).items 3 ≠ none :=
  ⟨collect_item_monotone.1 0,
   collect_item_monotone.2
     { items := Function.update LanguageItems.new 3 (some (local_def 4)),
       errors := [] }
     0 (local_def 9) 3 (by decide)⟩

/-! ### C10 -/

/-- C10: `item_name` is total over all indexes — for every index outside
the catalog range it returns the placeholder `"???"` rather than
failing. -/
theorem item_name_out_of_range (n : Nat) (h : 40 ≤ n) :
    item_name n = "???" := by
  unfold item_name
  split <;> first | rfl | omega

/-- C10 witness: index 1000 is out of range and yields `"???"`. -/
theorem item_name_out_of_range_witness :
    40 ≤ 1000 ∧ item_name 1000 = "???" :=
  ⟨by decide, item_name_out_of_range 1000 (by decide)⟩

end LangItems
